import Mathlib

/-!
Shallow embedding of the OTP verification / lockout state machine of
`sage_auth` (files `sage_auth/mixins/otp.py` and `sage_auth/manager/user.py`)
together with theorems checking the natural-language specification against it.

The web layer (request/response, rendering) is abstracted away: a request is
handled by a pure step function over an explicit state (session, the user
record the session identifier resolves to, and the stored OTP records), and
the observable effects (messages shown, domain events emitted, the token
handed to the notification sink, the login call, the final redirect or
unhandled exception) are returned explicitly.
-/

namespace SageAuth

/-- `OTPState` from `sage_otp.helpers.choices` as used by the mixin. -/
inductive OTPState where
  | active
  | consumed
  | expired
deriving DecidableEq, Repr

/-- Reason codes (`ReasonOptions`) used by `VerifyOtpMixin`. -/
inductive Reason where
  | emailActivation
  | forgetPassword
deriving DecidableEq, Repr

/-- The OTP record (`sage_otp.models.OTP`) fields read and written by the mixin. -/
structure OtpRecord where
  token : String
  state : OTPState
  lastSentAt : Int
  failedAttemptsCount : Nat
deriving DecidableEq, Repr

/-- The `SageUser` fields read and written by the mixin. -/
structure User where
  isActive : Bool
  isBlock : Bool
deriving DecidableEq, Repr, Fintype

/-- The session keys touched by `VerifyOtpMixin`.  A `none` (or `false` for
`spa`) field models the key being absent from the session store. -/
structure Session where
  email : Option String
  spa : Bool
  maxCounter : Option Nat
  blockCount : Option Nat
  lockoutStartTime : Option Int
  reason : Option Reason
deriving DecidableEq, Repr

/-- The configuration surface read by the mixin:
`OTP_LOCKOUT_DURATION` (minutes), `OTP_MAX_REQUEST_TIMEOUT` (`lock_user`),
`OTP_BLOCK_COUNT` (`block_count`), `OTP_MAX_FAILED_ATTEMPTS` (`otp_max`),
and the OTP manager's `EXPIRE_TIME.seconds`. -/
structure Config where
  lockoutDuration : Nat
  lockUser : Nat
  blockCount : Nat
  otpMax : Nat
  expireTime : Nat
deriving DecidableEq, Repr

/-- Python exceptions that can escape the mixin unhandled. -/
inductive PyExc where
  | typeError
  | doesNotExist
deriving DecidableEq, Repr

/-- The user-facing messages produced by the mixin, one constructor per
distinct `messages.error/info/success` call site. -/
inductive Msg where
  | blockedContact
  | unauthorized
  | expiredNewSent
  | tooManyNewSent
  | verifiedSuccess
  | incorrect
  | invalidIdentifier
  | unexpectedError
  | newOtpEmail
  | newOtpSms
  | blockedSupport
  | otpTokenMissing
  | blockedPost
  | waitLockout (minutesLeft secondsLeft : Int)
  | canTryAgain
deriving DecidableEq, Repr

/-- Domain events (`otp_expired`, `otp_failed`, `otp_verified` signals). -/
inductive Event where
  | expired
  | failed (attempts : Nat)
  | verified
deriving DecidableEq, Repr

/-- How a handled request terminates. -/
inductive Outcome where
  | redirectLogin
  | redirectPath
  | redirectSuccess
  | render
  | exn (e : PyExc)
deriving DecidableEq, Repr

/-- The OTP repository rows relevant to one user, keyed by reason.  A row is
updated in place by `otpSave`; creating a new row prepends it, so earlier
rows stay visible as history and `otpLookup` returns the newest row for a
reason (the one the manager's `get_otp` fetches). -/
def otpLookup (otps : List (Reason × OtpRecord)) (r : Reason) : Option OtpRecord :=
  match otps with
  | [] => none
  | (r', o) :: rest => if r' = r then some o else otpLookup rest r

/-- Persist an update of the current row for reason `r` (the `save()` /
`update_state` calls on a fetched instance). -/
def otpSave (r : Reason) (v : OtpRecord) : List (Reason × OtpRecord) → List (Reason × OtpRecord)
  | [] => []
  | (r', o) :: rest => if r' = r then (r, v) :: rest else (r', o) :: otpSave r v rest

/-- A freshly generated OTP record. -/
def newOtp (now : Int) (fresh : String) : OtpRecord :=
  { token := fresh, state := OTPState.active, lastSentAt := now, failedAttemptsCount := 0 }

/-- `"@" in identifier`: decides email versus SMS delivery and which user
field the identifier is looked up against. -/
def hasAt (s : String) : Bool :=
  s.data.contains '@'

/-- Modelled from the spec: `sage_otp`'s `OTPManager.get_or_create_otp` is an
external collaborator not in this repository; the spec's `issue` contract says
get-or-create returns an Active, non-expired record unchanged (idempotent) and
otherwise generates a new token with state Active, `last_sent_at = now`,
`failed_attempts_count = 0`.  Returns the issued record and the updated store. -/
def getOrCreateOtp (cfg : Config) (reason : Reason) (now : Int) (fresh : String)
    (otps : List (Reason × OtpRecord)) : OtpRecord × List (Reason × OtpRecord) :=
  match otpLookup otps reason with
  | some rec =>
      if rec.state = OTPState.active ∧ now < rec.lastSentAt + (cfg.expireTime : Int) then
        (rec, otps)
      else
        (newOtp now fresh, (reason, newOtp now fresh) :: otps)
  | none => (newOtp now fresh, (reason, newOtp now fresh) :: otps)

/-- `VerifyOtpMixin.send_new_otp`: get-or-create the record for the mixin's
reason, then hand its token to the email sink when the identifier contains
`@`, otherwise to the SMS backend.  Returns the updated store, the messages
added, and the token actually sent. -/
def sendNewOtp (cfg : Config) (reason : Reason) (now : Int) (fresh : String)
    (ident : String) (otps : List (Reason × OtpRecord)) :
    List (Reason × OtpRecord) × List Msg × String :=
  let g := getOrCreateOtp cfg reason now fresh otps
  if hasAt ident then (g.2, [Msg.newOtpEmail], g.1.token)
  else (g.2, [Msg.newOtpSms], g.1.token)

/-- Result of one `verify_otp` call: `result` is the returned value (`some u`
when the user object is returned, `none` when `False` is), `user` the user row
as persisted, `otps` the OTP store as persisted, plus messages, events and the
token handed to the notification sink by a resend (if any). -/
structure VerifyRes where
  result : Option User
  user : Option User
  otps : List (Reason × OtpRecord)
  messages : List Msg
  events : List Event
  sent : Option String
deriving DecidableEq, Repr

/-- `VerifyOtpMixin.verify_otp`.  `dbUser` is the user row the identifier
resolves to (`none` makes `get_user_by_identifier` raise
`SageUser.DoesNotExist`, caught by the first `except`); a missing OTP row
raises `OTPDoesNotExists`, which only the generic `except Exception` handler
catches (emitting `otp_failed` with `attempts=0`). -/
def verifyOtp (cfg : Config) (reason : Reason) (ident : String)
    (entered : Option String) (now : Int) (fresh : String)
    (dbUser : Option User) (otps : List (Reason × OtpRecord)) : VerifyRes :=
  match dbUser with
  | none =>
      { result := none, user := none, otps := otps,
        messages := [Msg.invalidIdentifier], events := [], sent := none }
  | some user =>
    match otpLookup otps reason with
    | none =>
        { result := none, user := some user, otps := otps,
          messages := [Msg.unexpectedError], events := [Event.failed 0], sent := none }
    | some otp =>
      if otp.lastSentAt + (cfg.expireTime : Int) - now ≤ 0 then
        let otps1 := otpSave reason { otp with state := OTPState.expired } otps
        let s := sendNewOtp cfg reason now fresh ident otps1
        { result := none, user := some user, otps := s.1,
          messages := Msg.expiredNewSent :: s.2.1, events := [Event.expired],
          sent := some s.2.2 }
      else if cfg.otpMax ≤ otp.failedAttemptsCount then
        let s := sendNewOtp cfg reason now fresh ident otps
        { result := none, user := some user, otps := s.1,
          messages := Msg.tooManyNewSent :: s.2.1,
          events := [Event.failed otp.failedAttemptsCount], sent := some s.2.2 }
      else if entered = some otp.token then
        let u := { user with isActive := true }
        { result := some u, user := some u,
          otps := otpSave reason { otp with state := OTPState.consumed } otps,
          messages := [Msg.verifiedSuccess], events := [Event.verified], sent := none }
      else
        let n := otp.failedAttemptsCount + 1
        { result := none, user := some user,
          otps := otpSave reason { otp with failedAttemptsCount := n } otps,
          messages := [Msg.incorrect], events := [Event.failed n], sent := none }

/-- `VerifyOtpMixin.block_user`: set `is_block=True`, `is_active=False` on the
user and persist, then expire the OTP record for the session's stored reason
(a missing row, or no stored reason, hits the `OTP.DoesNotExist` handler). -/
def blockUserStep (user : User) (sessReason : Option Reason)
    (otps : List (Reason × OtpRecord)) : User × List (Reason × OtpRecord) × List Msg :=
  let u := { user with isBlock := true, isActive := false }
  match sessReason with
  | none => (u, otps, [Msg.otpTokenMissing])
  | some r =>
    match otpLookup otps r with
    | none => (u, otps, [Msg.otpTokenMissing])
    | some otp =>
        (u, otpSave r { otp with state := OTPState.expired } otps, [Msg.blockedSupport])

/-- `VerifyOtpMixin.handle_locked_user`: while the lockout window is open,
report the remaining minutes and seconds; once it has elapsed, reset
`max_counter` to 0 and delete `lockout_start_time`. -/
def handleLockedUser (cfg : Config) (now : Int) (sess : Session) : Session × List Msg :=
  match sess.lockoutStartTime with
  | none => (sess, [])
  | some t0 =>
    let timeLeft : Int := (cfg.lockoutDuration : Int) * 60 - (now - t0)
    if 0 < timeLeft then
      (sess, [Msg.waitLockout (timeLeft / 60) (timeLeft % 60)])
    else
      ({ sess with maxCounter := some 0, lockoutStartTime := none }, [Msg.canTryAgain])

/-- The observable result of one handled request. -/
structure Res where
  session : Session
  dbUser : Option User
  otps : List (Reason × OtpRecord)
  messages : List Msg
  events : List Event
  loggedIn : Option User
  sent : Option String
  outcome : Outcome
deriving DecidableEq, Repr

/-- `VerifyOtpMixin.post`: block check, throttle check, then `verify_otp`;
on success, `login` unless the reason is `FORGET_PASSWORD`, clear the session
keys `spa`, `block_count`, `max_counter`, and redirect to the success URL. -/
def postStep (cfg : Config) (reason : Reason) (ident : String)
    (entered : Option String) (now : Int) (fresh : String)
    (sess : Session) (user : User) (otps : List (Reason × OtpRecord)) : Res :=
  let count := sess.maxCounter.getD 0
  let block := sess.blockCount.getD 0
  if cfg.blockCount ≤ block then
    let b := blockUserStep user sess.reason otps
    { session := sess, dbUser := some b.1, otps := b.2.1,
      messages := b.2.2 ++ [Msg.blockedPost], events := [],
      loggedIn := none, sent := none, outcome := Outcome.redirectPath }
  else if count < cfg.lockUser then
    let sess1 := { sess with maxCounter := some (count + 1) }
    let v := verifyOtp cfg reason ident entered now fresh (some user) otps
    match v.result with
    | some u =>
        let sess2 := { sess1 with spa := false, blockCount := none, maxCounter := none }
        { session := sess2, dbUser := v.user, otps := v.otps,
          messages := v.messages, events := v.events,
          loggedIn := if reason = Reason.forgetPassword then none else some u,
          sent := v.sent, outcome := Outcome.redirectSuccess }
    | none =>
        { session := sess1, dbUser := v.user, otps := v.otps,
          messages := v.messages, events := v.events,
          loggedIn := none, sent := v.sent, outcome := Outcome.render }
  else
    let sess1 :=
      if sess.lockoutStartTime = none then
        { sess with lockoutStartTime := some now, blockCount := some (block + 1) }
      else sess
    let h := handleLockedUser cfg now sess1
    { session := h.1, dbUser := some user, otps := otps,
      messages := h.2, events := [],
      loggedIn := none, sent := none, outcome := Outcome.render }

/-- One full request through `VerifyOtpMixin`: `setup` reads the session key
`email`; `dispatch` looks the user up (a `none` identifier makes
`"@" in None` raise `TypeError`, a missing user raises
`SageUser.DoesNotExist` — both unhandled there), rejects blocked users, then
rejects requests without an active `spa` signup session unless in the
reactivation flow, and finally delegates to `post`. -/
def handleRequest (cfg : Config) (reason : Reason) (reactivate : Bool)
    (entered : Option String) (now : Int) (fresh : String)
    (sess : Session) (dbUser : Option User) (otps : List (Reason × OtpRecord)) : Res :=
  match sess.email with
  | none =>
      { session := sess, dbUser := dbUser, otps := otps, messages := [], events := [],
        loggedIn := none, sent := none, outcome := Outcome.exn PyExc.typeError }
  | some ident =>
    match dbUser with
    | none =>
        { session := sess, dbUser := dbUser, otps := otps, messages := [], events := [],
          loggedIn := none, sent := none, outcome := Outcome.exn PyExc.doesNotExist }
    | some user =>
      if user.isBlock then
        { session := sess, dbUser := some user, otps := otps,
          messages := [Msg.blockedContact], events := [],
          loggedIn := none, sent := none, outcome := Outcome.redirectLogin }
      else if !reactivate && !sess.spa then
        { session := sess, dbUser := some user, otps := otps,
          messages := [Msg.unauthorized], events := [],
          loggedIn := none, sent := none, outcome := Outcome.redirectLogin }
      else postStep cfg reason ident entered now fresh sess user otps

/-- The enabled channels of `settings.AUTHENTICATION_METHODS` (an absent key
reads as false through `.get`). -/
structure Methods where
  emailPassword : Bool
  phonePassword : Bool
  usernamePassword : Bool
deriving DecidableEq, Repr

/-- Which identification fields are present in the supplied `user_data`. -/
structure UserData where
  hasEmail : Bool
  hasPhone : Bool
  hasUsername : Bool
deriving DecidableEq, Repr

/-- The three single identity strategies. -/
inductive StrategyKind where
  | email
  | phone
  | username
deriving DecidableEq, Repr, Fintype

/-- Result of `AuthUserManager.get_authentication_strategies`: the raised
`ValueError` (`NoAuthMethodError`), a single strategy, or a
`CombinedStrategy` wrapping the matched list. -/
inductive StrategyResult where
  | error
  | single (s : StrategyKind)
  | combined (ss : List StrategyKind)
deriving DecidableEq, Repr

/-- The `strategies` list built by `get_authentication_strategies`, in the
source's declaration order: email, phone, username. -/
def matchedStrategies (m : Methods) (d : UserData) : List StrategyKind :=
  (if m.emailPassword && d.hasEmail then [StrategyKind.email] else []) ++
  (if m.phonePassword && d.hasPhone then [StrategyKind.phone] else []) ++
  (if m.usernamePassword && d.hasUsername then [StrategyKind.username] else [])

/-- `AuthUserManager.get_authentication_strategies`. -/
def getAuthenticationStrategies (m : Methods) (d : UserData) : StrategyResult :=
  match matchedStrategies m d with
  | [] => StrategyResult.error
  | [s] => StrategyResult.single s
  | ss => StrategyResult.combined ss

/-- Position of a strategy in the configuration-declaration order. -/
def declIdx : StrategyKind → Nat
  | StrategyKind.email => 0
  | StrategyKind.phone => 1
  | StrategyKind.username => 2

/-- Sample configuration: the source's default settings
(`OTP_LOCKOUT_DURATION=1`, `OTP_MAX_REQUEST_TIMEOUT=4`, `OTP_BLOCK_COUNT=1`,
`OTP_MAX_FAILED_ATTEMPTS=4`) with a five-minute expiry window. -/
def cfgEx : Config :=
  { lockoutDuration := 1, lockUser := 4, blockCount := 1, otpMax := 4, expireTime := 300 }

/-- Sample not-yet-active, not-blocked user. -/
def userEx : User := { isActive := false, isBlock := false }

/-- Sample session mid-signup: identifier stored, `spa` set, counters absent. -/
def sessEx : Session :=
  { email := some "a@b.c", spa := true, maxCounter := none, blockCount := none,
    lockoutStartTime := none, reason := some Reason.emailActivation }

/-- Sample active record whose failed-attempt count has reached
`OTP_MAX_FAILED_ATTEMPTS`. -/
def otpFullFails : OtpRecord :=
  { token := "111111", state := OTPState.active, lastSentAt := 0, failedAttemptsCount := 4 }

/-- Sample active record with two failed attempts. -/
def otpFresh : OtpRecord :=
  { token := "111111", state := OTPState.active, lastSentAt := 0, failedAttemptsCount := 2 }

theorem otpLookup_otpSave_self (otps : List (Reason × OtpRecord)) (r : Reason)
    (o v : OtpRecord) (h : otpLookup otps r = some o) :
    otpLookup (otpSave r v otps) r = some v := by
  induction otps with
  | nil => simp [otpLookup] at h
  | cons p rest ih =>
    obtain ⟨r', o'⟩ := p
    by_cases hr : r' = r
    · simp [otpSave, otpLookup, hr]
    · simp only [otpLookup, if_neg hr] at h
      simp only [otpSave, if_neg hr, otpLookup, if_neg hr]
      exact ih h

theorem mem_otpSave (otps : List (Reason × OtpRecord)) (r : Reason)
    (o v : OtpRecord) (h : otpLookup otps r = some o) :
    (r, v) ∈ otpSave r v otps := by
  induction otps with
  | nil => simp [otpLookup] at h
  | cons p rest ih =>
    obtain ⟨r', o'⟩ := p
    by_cases hr : r' = r
    · simp [otpSave, hr]
    · simp only [otpLookup, if_neg hr] at h
      simp only [otpSave, if_neg hr]
      exact List.mem_cons_of_mem _ (ih h)

theorem verifyOtp_user_cases (cfg : Config) (reason : Reason) (ident : String)
    (entered : Option String) (now : Int) (fresh : String) (user : User)
    (otps : List (Reason × OtpRecord)) :
    (verifyOtp cfg reason ident entered now fresh (some user) otps).user = some user ∨
    (verifyOtp cfg reason ident entered now fresh (some user) otps).user
      = some { user with isActive := true } := by
  unfold verifyOtp
  cases hk : otpLookup otps reason with
  | none => left; rfl
  | some otp =>
    by_cases h1 : otp.lastSentAt + (cfg.expireTime : Int) - now ≤ 0
    · left; simp [h1]
    · by_cases h2 : cfg.otpMax ≤ otp.failedAttemptsCount
      · left; simp [h1, h2]
      · by_cases h3 : entered = some otp.token
        · right; simp [h1, h2, h3]
        · left; simp [h1, h2, h3]

/-- C10: when the session holds no stored identifier (the session key `email`
is absent, so `user_identifier` is `None`), every verification request fails
with an unhandled `TypeError` inside user lookup (`"@" in None`) before
reaching any defined outcome, message, or event: no message is shown, no
event is emitted, and no state is changed. -/
theorem handleRequest_no_identifier_raises (cfg : Config) (reason : Reason)
    (reactivate : Bool) (entered : Option String) (now : Int) (fresh : String)
    (sess : Session) (dbUser : Option User) (otps : List (Reason × OtpRecord))
    (h : sess.email = none) :
    handleRequest cfg reason reactivate entered now fresh sess dbUser otps =
      { session := sess, dbUser := dbUser, otps := otps, messages := [], events := [],
        loggedIn := none, sent := none, outcome := Outcome.exn PyExc.typeError } := by
  unfold handleRequest
  rw [h]

theorem handleRequest_no_identifier_raises_witness :
    handleRequest cfgEx Reason.emailActivation false (some "123456") 0 "999999"
        { sessEx with email := none } (some userEx) [] =
      { session := { sessEx with email := none }, dbUser := some userEx, otps := [],
        messages := [], events := [], loggedIn := none, sent := none,
        outcome := Outcome.exn PyExc.typeError } :=
  handleRequest_no_identifier_raises cfgEx Reason.emailActivation false (some "123456") 0
    "999999" { sessEx with email := none } (some userEx) [] rfl

/-- C5: a request by a user whose `is_block` is true is rejected by
`dispatch` before any other processing: the result is exactly the login
redirect with the blocked-account message, with the session (all throttle
counters), the OTP store and the user record unchanged, no event emitted,
no token sent and no login performed. -/
theorem handleRequest_blocked_rejected (cfg : Config) (reason : Reason)
    (reactivate : Bool) (entered : Option String) (now : Int) (fresh : String)
    (sess : Session) (user : User) (otps : List (Reason × OtpRecord)) (ident : String)
    (hemail : sess.email = some ident) (hblock : user.isBlock = true) :
    handleRequest cfg reason reactivate entered now fresh sess (some user) otps =
      { session := sess, dbUser := some user, otps := otps,
        messages := [Msg.blockedContact], events := [],
        loggedIn := none, sent := none, outcome := Outcome.redirectLogin } := by
  unfold handleRequest
  rw [hemail]
  simp [hblock]

theorem handleRequest_blocked_rejected_witness :
    handleRequest cfgEx Reason.emailActivation false (some "111111") 10 "999999"
        sessEx (some { isActive := false, isBlock := true })
        [(Reason.emailActivation, otpFresh)] =
      { session := sessEx, dbUser := some { isActive := false, isBlock := true },
        otps := [(Reason.emailActivation, otpFresh)],
        messages := [Msg.blockedContact], events := [],
        loggedIn := none, sent := none, outcome := Outcome.redirectLogin } :=
  handleRequest_blocked_rejected cfgEx Reason.emailActivation false (some "111111") 10
    "999999" sessEx { isActive := false, isBlock := true }
    [(Reason.emailActivation, otpFresh)] "a@b.c" rfl rfl

/-- C9 (code bug witness): with a stored identifier that resolves to no user
record, `dispatch` — the entry path of every verification request — calls
`get_user_by_identifier` outside any handler, so `SageUser.DoesNotExist`
propagates unhandled with no user-facing message; only the `verify_otp`
body (unreachable on this path, since `dispatch` runs first) would translate
the same condition into the "invalid identifier, restart the process"
message the spec requires. -/
theorem dispatch_missing_user_unhandled :
    (handleRequest cfgEx Reason.emailActivation false (some "123456") 0 "999999"
        sessEx none []).outcome = Outcome.exn PyExc.doesNotExist ∧
    (handleRequest cfgEx Reason.emailActivation false (some "123456") 0 "999999"
        sessEx none []).messages = [] ∧
    (verifyOtp cfgEx Reason.emailActivation "a@b.c" (some "123456") 0 "999999"
        none []).messages = [Msg.invalidIdentifier] :=
  ⟨rfl, rfl, rfl⟩

/-- C8: strategy resolution is a pure three-way case split on the matched
channels: zero matches raise `NoAuthMethodError`, exactly one match returns
that single strategy, two or more return a `Combined` strategy wrapping all
matches; and the matched list is always in the fixed declaration order
email, phone, username. -/
theorem getAuthenticationStrategies_cases (m : Methods) (d : UserData) :
    (matchedStrategies m d = [] → getAuthenticationStrategies m d = StrategyResult.error) ∧
    (∀ s, matchedStrategies m d = [s] →
      getAuthenticationStrategies m d = StrategyResult.single s) ∧
    (2 ≤ (matchedStrategies m d).length →
      getAuthenticationStrategies m d = StrategyResult.combined (matchedStrategies m d)) ∧
    List.Pairwise (fun a b => declIdx a < declIdx b) (matchedStrategies m d) := by
  obtain ⟨me, mp, mu⟩ := m
  obtain ⟨de, dp, du⟩ := d
  cases me <;> cases mp <;> cases mu <;> cases de <;> cases dp <;> cases du <;> decide

theorem getAuthenticationStrategies_cases_witness :
    getAuthenticationStrategies ⟨false, true, false⟩ ⟨true, true, true⟩
      = StrategyResult.single StrategyKind.phone ∧
    getAuthenticationStrategies ⟨true, true, true⟩ ⟨true, false, true⟩
      = StrategyResult.combined [StrategyKind.email, StrategyKind.username] ∧
    getAuthenticationStrategies ⟨true, true, true⟩ ⟨false, false, false⟩
      = StrategyResult.error :=
  ⟨(getAuthenticationStrategies_cases ⟨false, true, false⟩ ⟨true, true, true⟩).2.1
      StrategyKind.phone rfl,
   (getAuthenticationStrategies_cases ⟨true, true, true⟩ ⟨true, false, true⟩).2.2.1
      (by decide),
   (getAuthenticationStrategies_cases ⟨true, true, true⟩ ⟨false, false, false⟩).1 rfl⟩

/-- C2: on a `verify_otp` call with a present OTP record, if
`now ≥ last_sent_at + expiryWindow` (the boundary included: the hypothesis is
`≤`, and the witness instantiates it at exact equality) the record is
persisted in state Expired and the outcome is Expired — for every
failed-attempt count and entered code, so before any failed-attempt or token
check — and a new OTP (a fresh token) is then created and sent. -/
theorem verifyOtp_expired_path (cfg : Config) (reason : Reason) (ident : String)
    (entered : Option String) (now : Int) (fresh : String) (user : User)
    (otps : List (Reason × OtpRecord)) (otp : OtpRecord)
    (hlook : otpLookup otps reason = some otp)
    (hexp : otp.lastSentAt + (cfg.expireTime : Int) ≤ now) :
    (verifyOtp cfg reason ident entered now fresh (some user) otps).result = none ∧
    (verifyOtp cfg reason ident entered now fresh (some user) otps).events
      = [Event.expired] ∧
    (reason, { otp with state := OTPState.expired })
      ∈ (verifyOtp cfg reason ident entered now fresh (some user) otps).otps ∧
    otpLookup (verifyOtp cfg reason ident entered now fresh (some user) otps).otps reason
      = some (newOtp now fresh) ∧
    (verifyOtp cfg reason ident entered now fresh (some user) otps).sent = some fresh ∧
    (verifyOtp cfg reason ident entered now fresh (some user) otps).messages
      = Msg.expiredNewSent :: (if hasAt ident then [Msg.newOtpEmail] else [Msg.newOtpSms]) := by
  have hcond : otp.lastSentAt + (cfg.expireTime : Int) - now ≤ 0 := by omega
  have h1 : otpLookup (otpSave reason { otp with state := OTPState.expired } otps) reason
      = some { otp with state := OTPState.expired } :=
    otpLookup_otpSave_self otps reason otp _ hlook
  have h2 : (reason, { otp with state := OTPState.expired })
      ∈ otpSave reason { otp with state := OTPState.expired } otps :=
    mem_otpSave otps reason otp _ hlook
  simp only [verifyOtp, hlook, if_pos hcond]
  simp only [sendNewOtp, getOrCreateOtp, h1]
  cases hat : hasAt ident <;>
    simp_all [otpLookup, List.mem_cons, newOtp]

theorem verifyOtp_expired_path_witness :
    (verifyOtp cfgEx Reason.emailActivation "a@b.c" (some "111111") 300 "999999"
        (some userEx) [(Reason.emailActivation, otpFresh)]).result = none ∧
    (verifyOtp cfgEx Reason.emailActivation "a@b.c" (some "111111") 300 "999999"
        (some userEx) [(Reason.emailActivation, otpFresh)]).events = [Event.expired] ∧
    (Reason.emailActivation, { otpFresh with state := OTPState.expired })
      ∈ (verifyOtp cfgEx Reason.emailActivation "a@b.c" (some "111111") 300 "999999"
          (some userEx) [(Reason.emailActivation, otpFresh)]).otps ∧
    otpLookup (verifyOtp cfgEx Reason.emailActivation "a@b.c" (some "111111") 300 "999999"
        (some userEx) [(Reason.emailActivation, otpFresh)]).otps Reason.emailActivation
      = some (newOtp 300 "999999") ∧
    (verifyOtp cfgEx Reason.emailActivation "a@b.c" (some "111111") 300 "999999"
        (some userEx) [(Reason.emailActivation, otpFresh)]).sent = some "999999" ∧
    (verifyOtp cfgEx Reason.emailActivation "a@b.c" (some "111111") 300 "999999"
        (some userEx) [(Reason.emailActivation, otpFresh)]).messages
      = Msg.expiredNewSent ::
          (if hasAt "a@b.c" then [Msg.newOtpEmail] else [Msg.newOtpSms]) :=
  verifyOtp_expired_path cfgEx Reason.emailActivation "a@b.c" (some "111111") 300 "999999"
    userEx [(Reason.emailActivation, otpFresh)] otpFresh rfl (by decide)

/-- C1 counterexample: with `OTP_MAX_FAILED_ATTEMPTS = 4`, an Active,
non-expired record whose failed-attempt count is already 4, and a wrong
entered code, `verify_otp` takes the TooManyAttempts branch, yet the stored
record stays Active (not Expired) with its original token, and the resend
hands the notification sink the original token `"111111"`, not a different
one — refuting both parts of the claim at this input. -/
theorem tooMany_claim_counterexample :
    (verifyOtp cfgEx Reason.emailActivation "a@b.c" (some "000000") 10 "999999"
        (some userEx) [(Reason.emailActivation, otpFullFails)]).events
      = [Event.failed 4] ∧
    otpLookup (verifyOtp cfgEx Reason.emailActivation "a@b.c" (some "000000") 10 "999999"
        (some userEx) [(Reason.emailActivation, otpFullFails)]).otps Reason.emailActivation
      = some otpFullFails ∧
    otpFullFails.state = OTPState.active ∧
    (verifyOtp cfgEx Reason.emailActivation "a@b.c" (some "000000") 10 "999999"
        (some userEx) [(Reason.emailActivation, otpFullFails)]).sent
      = some otpFullFails.token ∧
    otpFullFails.token ≠ "999999" := by
  refine ⟨by decide, by decide, by decide, by decide, by decide⟩

/-- C1 as amended: the record transitions to Expired when its time window
elapses (and when the user is blocked), but not when the failed-attempt
count reaches the maximum: after an evaluate that returns TooManyAttempts
(on an Active, non-expired record) the stored record is unchanged — still
Active, same token, same count — and the subsequent resend re-issues the
original token, since get-or-create is idempotent on an Active, non-expired
record. -/
theorem verifyOtp_tooMany_keeps_record (cfg : Config) (reason : Reason) (ident : String)
    (entered : Option String) (now : Int) (fresh : String) (user : User)
    (otps : List (Reason × OtpRecord)) (otp : OtpRecord)
    (hlook : otpLookup otps reason = some otp)
    (hactive : otp.state = OTPState.active)
    (hnotexp : now < otp.lastSentAt + (cfg.expireTime : Int))
    (hmax : cfg.otpMax ≤ otp.failedAttemptsCount) :
    (verifyOtp cfg reason ident entered now fresh (some user) otps).result = none ∧
    (verifyOtp cfg reason ident entered now fresh (some user) otps).events
      = [Event.failed otp.failedAttemptsCount] ∧
    (verifyOtp cfg reason ident entered now fresh (some user) otps).otps = otps ∧
    (verifyOtp cfg reason ident entered now fresh (some user) otps).sent
      = some otp.token ∧
    (verifyOtp cfg reason ident entered now fresh (some user) otps).messages
      = Msg.tooManyNewSent :: (if hasAt ident then [Msg.newOtpEmail] else [Msg.newOtpSms]) := by
  have hcond : ¬ otp.lastSentAt + (cfg.expireTime : Int) - now ≤ 0 := by omega
  simp only [verifyOtp, hlook, if_neg hcond, if_pos hmax]
  simp only [sendNewOtp, getOrCreateOtp, hlook, if_pos (And.intro hactive hnotexp)]
  cases hat : hasAt ident <;> simp [hat]

theorem verifyOtp_tooMany_keeps_record_witness :
    (verifyOtp cfgEx Reason.emailActivation "a@b.c" (some "000000") 10 "999999"
        (some userEx) [(Reason.emailActivation, otpFullFails)]).result = none ∧
    (verifyOtp cfgEx Reason.emailActivation "a@b.c" (some "000000") 10 "999999"
        (some userEx) [(Reason.emailActivation, otpFullFails)]).events
      = [Event.failed otpFullFails.failedAttemptsCount] ∧
    (verifyOtp cfgEx Reason.emailActivation "a@b.c" (some "000000") 10 "999999"
        (some userEx) [(Reason.emailActivation, otpFullFails)]).otps
      = [(Reason.emailActivation, otpFullFails)] ∧
    (verifyOtp cfgEx Reason.emailActivation "a@b.c" (some "000000") 10 "999999"
        (some userEx) [(Reason.emailActivation, otpFullFails)]).sent
      = some otpFullFails.token ∧
    (verifyOtp cfgEx Reason.emailActivation "a@b.c" (some "000000") 10 "999999"
        (some userEx) [(Reason.emailActivation, otpFullFails)]).messages
      = Msg.tooManyNewSent ::
          (if hasAt "a@b.c" then [Msg.newOtpEmail] else [Msg.newOtpSms]) :=
  verifyOtp_tooMany_keeps_record cfgEx Reason.emailActivation "a@b.c" (some "000000") 10
    "999999" userEx [(Reason.emailActivation, otpFullFails)] otpFullFails rfl rfl
    (by decide) (by decide)

/-- C3: on a non-expired Active record, (a) if the failed-attempt count has
reached the maximum, evaluate returns TooManyAttempts and does not increment
further (the store is unchanged); (b) otherwise a wrong entered code
increments the count by exactly one and persists it; (c) starting one below
the maximum, a single mismatch reaches the maximum and a subsequent evaluate
returns TooManyAttempts without further increment. -/
theorem verifyOtp_attempt_counting (cfg : Config) (reason : Reason) (ident : String)
    (now now2 : Int) (fresh fresh2 : String) (user : User)
    (otps : List (Reason × OtpRecord)) (otp : OtpRecord)
    (hlook : otpLookup otps reason = some otp)
    (hactive : otp.state = OTPState.active)
    (hnotexp : now < otp.lastSentAt + (cfg.expireTime : Int))
    (hnotexp2 : now2 < otp.lastSentAt + (cfg.expireTime : Int)) :
    (∀ entered, cfg.otpMax ≤ otp.failedAttemptsCount →
      (verifyOtp cfg reason ident entered now fresh (some user) otps).otps = otps ∧
      (verifyOtp cfg reason ident entered now fresh (some user) otps).events
        = [Event.failed otp.failedAttemptsCount]) ∧
    (∀ entered, otp.failedAttemptsCount < cfg.otpMax → entered ≠ some otp.token →
      (verifyOtp cfg reason ident entered now fresh (some user) otps).result = none ∧
      (verifyOtp cfg reason ident entered now fresh (some user) otps).events
        = [Event.failed (otp.failedAttemptsCount + 1)] ∧
      otpLookup (verifyOtp cfg reason ident entered now fresh (some user) otps).otps reason
        = some { otp with failedAttemptsCount := otp.failedAttemptsCount + 1 }) ∧
    (∀ entered entered2, otp.failedAttemptsCount + 1 = cfg.otpMax →
      entered ≠ some otp.token →
      otpLookup (verifyOtp cfg reason ident entered now fresh (some user) otps).otps reason
        = some { otp with failedAttemptsCount := cfg.otpMax } ∧
      (verifyOtp cfg reason ident entered2 now2 fresh2 (some user)
          (verifyOtp cfg reason ident entered now fresh (some user) otps).otps).otps
        = (verifyOtp cfg reason ident entered now fresh (some user) otps).otps ∧
      (verifyOtp cfg reason ident entered2 now2 fresh2 (some user)
          (verifyOtp cfg reason ident entered now fresh (some user) otps).otps).events
        = [Event.failed cfg.otpMax]) := by
  have hcond : ¬ otp.lastSentAt + (cfg.expireTime : Int) - now ≤ 0 := by omega
  refine ⟨?_, ?_, ?_⟩
  · intro entered hmax
    have h := verifyOtp_tooMany_keeps_record cfg reason ident entered now fresh user otps
      otp hlook hactive hnotexp hmax
    exact ⟨h.2.2.1, h.2.1⟩
  · intro entered hlt hne
    have hnmax : ¬ cfg.otpMax ≤ otp.failedAttemptsCount := by omega
    simp only [verifyOtp, hlook, if_neg hcond, if_neg hnmax, if_neg hne]
    exact ⟨trivial, trivial, otpLookup_otpSave_self otps reason otp _ hlook⟩
  · intro entered entered2 hb hne
    have hlt : otp.failedAttemptsCount < cfg.otpMax := by omega
    have hnmax : ¬ cfg.otpMax ≤ otp.failedAttemptsCount := by omega
    have hstep :
        (verifyOtp cfg reason ident entered now fresh (some user) otps).otps
          = otpSave reason { otp with failedAttemptsCount := otp.failedAttemptsCount + 1 }
              otps := by
      simp only [verifyOtp, hlook, if_neg hcond, if_neg hnmax, if_neg hne]
    have hlook2 :
        otpLookup (verifyOtp cfg reason ident entered now fresh (some user) otps).otps reason
          = some { otp with failedAttemptsCount := otp.failedAttemptsCount + 1 } := by
      rw [hstep]
      exact otpLookup_otpSave_self otps reason otp _ hlook
    have hlook2' :
        otpLookup (verifyOtp cfg reason ident entered now fresh (some user) otps).otps reason
          = some { otp with failedAttemptsCount := cfg.otpMax } := by
      rw [hlook2, hb]
    have h2 := verifyOtp_tooMany_keeps_record cfg reason ident entered2 now2 fresh2 user
      (verifyOtp cfg reason ident entered now fresh (some user) otps).otps
      { otp with failedAttemptsCount := cfg.otpMax } hlook2' (by simpa using hactive)
      (by simpa using hnotexp2) (by simp)
    exact ⟨hlook2', h2.2.2.1, by rw [h2.2.1]⟩

theorem verifyOtp_attempt_counting_witness :
    ((verifyOtp cfgEx Reason.emailActivation "a@b.c" (some "000000") 10 "999999"
        (some userEx) [(Reason.emailActivation, otpFullFails)]).otps
      = [(Reason.emailActivation, otpFullFails)] ∧
    (verifyOtp cfgEx Reason.emailActivation "a@b.c" (some "000000") 10 "999999"
        (some userEx) [(Reason.emailActivation, otpFullFails)]).events
      = [Event.failed otpFullFails.failedAttemptsCount]) ∧
    ((verifyOtp cfgEx Reason.emailActivation "a@b.c" (some "000000") 10 "999999"
        (some userEx) [(Reason.emailActivation, otpFresh)]).result = none ∧
    (verifyOtp cfgEx Reason.emailActivation "a@b.c" (some "000000") 10 "999999"
        (some userEx) [(Reason.emailActivation, otpFresh)]).events
      = [Event.failed (otpFresh.failedAttemptsCount + 1)] ∧
    otpLookup (verifyOtp cfgEx Reason.emailActivation "a@b.c" (some "000000") 10 "999999"
        (some userEx) [(Reason.emailActivation, otpFresh)]).otps Reason.emailActivation
      = some { otpFresh with failedAttemptsCount := otpFresh.failedAttemptsCount + 1 }) ∧
    (otpLookup (verifyOtp cfgEx Reason.emailActivation "a@b.c" (some "000000") 10 "999999"
        (some userEx)
        [(Reason.emailActivation, { otpFresh with failedAttemptsCount := 3 })]).otps
        Reason.emailActivation
      = some { otpFresh with failedAttemptsCount := cfgEx.otpMax } ∧
    (verifyOtp cfgEx Reason.emailActivation "a@b.c" (some "222222") 20 "888888"
        (some userEx)
        (verifyOtp cfgEx Reason.emailActivation "a@b.c" (some "000000") 10 "999999"
          (some userEx)
          [(Reason.emailActivation, { otpFresh with failedAttemptsCount := 3 })]).otps).otps
      = (verifyOtp cfgEx Reason.emailActivation "a@b.c" (some "000000") 10 "999999"
          (some userEx)
          [(Reason.emailActivation, { otpFresh with failedAttemptsCount := 3 })]).otps ∧
    (verifyOtp cfgEx Reason.emailActivation "a@b.c" (some "222222") 20 "888888"
        (some userEx)
        (verifyOtp cfgEx Reason.emailActivation "a@b.c" (some "000000") 10 "999999"
          (some userEx)
          [(Reason.emailActivation, { otpFresh with failedAttemptsCount := 3 })]).otps).events
      = [Event.failed cfgEx.otpMax]) :=
  ⟨(verifyOtp_attempt_counting cfgEx Reason.emailActivation "a@b.c" 10 20 "999999" "888888"
      userEx [(Reason.emailActivation, otpFullFails)] otpFullFails rfl rfl (by decide)
      (by decide)).1 (some "000000") (by decide),
   ((verifyOtp_attempt_counting cfgEx Reason.emailActivation "a@b.c" 10 20 "999999" "888888"
      userEx [(Reason.emailActivation, otpFresh)] otpFresh rfl rfl (by decide)
      (by decide)).2.1 (some "000000") (by decide) (by decide)),
   ((verifyOtp_attempt_counting cfgEx Reason.emailActivation "a@b.c" 10 20 "999999" "888888"
      userEx [(Reason.emailActivation, { otpFresh with failedAttemptsCount := 3 })]
      { otpFresh with failedAttemptsCount := 3 } rfl rfl (by decide)
      (by decide)).2.2 (some "000000") (some "222222") (by decide) (by decide))⟩

/-- C4: when the entered code equals the stored token on a non-expired
record with a failed-attempt count below the maximum (and the request passes
the block and throttle gates), the user is persisted with `is_active=True`,
the record is persisted as Consumed, the session keys `spa`, `block_count`
and `max_counter` are cleared, a login is performed exactly when the reason
is not `FORGET_PASSWORD`, and the caller is redirected to the success URL. -/
theorem handleRequest_success_path (cfg : Config) (reason : Reason) (reactivate : Bool)
    (now : Int) (fresh : String) (sess : Session) (user : User)
    (otps : List (Reason × OtpRecord)) (otp : OtpRecord) (ident : String)
    (hemail : sess.email = some ident) (hspa : sess.spa = true)
    (hnb : user.isBlock = false)
    (hblk : sess.blockCount.getD 0 < cfg.blockCount)
    (hcnt : sess.maxCounter.getD 0 < cfg.lockUser)
    (hlook : otpLookup otps reason = some otp)
    (hnotexp : now < otp.lastSentAt + (cfg.expireTime : Int))
    (hfail : otp.failedAttemptsCount < cfg.otpMax) :
    handleRequest cfg reason reactivate (some otp.token) now fresh sess (some user) otps =
      { session := { sess with spa := false, maxCounter := none, blockCount := none },
        dbUser := some { user with isActive := true },
        otps := otpSave reason { otp with state := OTPState.consumed } otps,
        messages := [Msg.verifiedSuccess], events := [Event.verified],
        loggedIn := if reason = Reason.forgetPassword then none
                    else some { user with isActive := true },
        sent := none, outcome := Outcome.redirectSuccess } ∧
    otpLookup (handleRequest cfg reason reactivate (some otp.token) now fresh sess
        (some user) otps).otps reason = some { otp with state := OTPState.consumed } := by
  have hncond : ¬ cfg.blockCount ≤ sess.blockCount.getD 0 := by omega
  have hcond : ¬ otp.lastSentAt + (cfg.expireTime : Int) - now ≤ 0 := by omega
  have hnmax : ¬ cfg.otpMax ≤ otp.failedAttemptsCount := by omega
  have main : handleRequest cfg reason reactivate (some otp.token) now fresh sess
      (some user) otps =
      { session := { sess with spa := false, maxCounter := none, blockCount := none },
        dbUser := some { user with isActive := true },
        otps := otpSave reason { otp with state := OTPState.consumed } otps,
        messages := [Msg.verifiedSuccess], events := [Event.verified],
        loggedIn := if reason = Reason.forgetPassword then none
                    else some { user with isActive := true },
        sent := none, outcome := Outcome.redirectSuccess } := by
    simp only [handleRequest, hemail, hnb, hspa, Bool.not_true, Bool.and_false,
      Bool.false_eq_true, if_false]
    simp only [postStep, if_neg hncond, if_pos hcnt, verifyOtp, hlook, if_neg hcond,
      if_neg hnmax, if_pos rfl, if_true]
    simp [hemail, hnb]
  refine ⟨main, ?_⟩
  rw [main]
  exact otpLookup_otpSave_self otps reason otp _ hlook

theorem handleRequest_success_path_witness :
    (handleRequest cfgEx Reason.emailActivation false (some "111111") 10 "999999" sessEx
        (some userEx) [(Reason.emailActivation, otpFresh)] =
      { session := { sessEx with spa := false, maxCounter := none, blockCount := none },
        dbUser := some { userEx with isActive := true },
        otps := otpSave Reason.emailActivation { otpFresh with state := OTPState.consumed }
          [(Reason.emailActivation, otpFresh)],
        messages := [Msg.verifiedSuccess], events := [Event.verified],
        loggedIn := if Reason.emailActivation = Reason.forgetPassword then none
                    else some { userEx with isActive := true },
        sent := none, outcome := Outcome.redirectSuccess }) ∧
    otpLookup (handleRequest cfgEx Reason.emailActivation false (some "111111") 10 "999999"
        sessEx (some userEx) [(Reason.emailActivation, otpFresh)]).otps
        Reason.emailActivation
      = some { otpFresh with state := OTPState.consumed } :=
  handleRequest_success_path cfgEx Reason.emailActivation false 10 "999999" sessEx userEx
    [(Reason.emailActivation, otpFresh)] otpFresh "a@b.c" rfl rfl rfl (by decide) (by decide)
    rfl (by decide) (by decide)

/-- C7: throttle invariants, for requests that pass the block gate:
(i) when `max_counter` has reached the lock threshold and no
`lockout_start_time` is recorded yet, `lockout_start_time` is set to now and
`block_count` is incremented by exactly one (with `max_counter` and the OTP
store untouched); (ii) re-entering while the lockout window is still open
changes nothing; (iii) once the window has elapsed, `lockout_start_time` is
removed and `max_counter` reset to 0, with `block_count` unchanged; (iv) on
the non-locked path `lockout_start_time` is untouched and `block_count` is
never incremented (it is either unchanged or cleared by a success). -/
theorem handleRequest_throttle_invariants (cfg : Config) (reason : Reason)
    (reactivate : Bool) (entered : Option String) (now : Int) (fresh : String)
    (sess : Session) (user : User) (otps : List (Reason × OtpRecord)) (ident : String)
    (hemail : sess.email = some ident) (hnb : user.isBlock = false) (hspa : sess.spa = true)
    (hblk : sess.blockCount.getD 0 < cfg.blockCount) :
    (cfg.lockUser ≤ sess.maxCounter.getD 0 → sess.lockoutStartTime = none →
      0 < cfg.lockoutDuration →
      (handleRequest cfg reason reactivate entered now fresh sess (some user) otps).session.lockoutStartTime
        = some now ∧
      (handleRequest cfg reason reactivate entered now fresh sess (some user) otps).session.blockCount
        = some (sess.blockCount.getD 0 + 1) ∧
      (handleRequest cfg reason reactivate entered now fresh sess (some user) otps).session.maxCounter
        = sess.maxCounter ∧
      (handleRequest cfg reason reactivate entered now fresh sess (some user) otps).otps
        = otps) ∧
    (∀ t0, cfg.lockUser ≤ sess.maxCounter.getD 0 → sess.lockoutStartTime = some t0 →
      now - t0 < (cfg.lockoutDuration : Int) * 60 →
      (handleRequest cfg reason reactivate entered now fresh sess (some user) otps).session
        = sess ∧
      (handleRequest cfg reason reactivate entered now fresh sess (some user) otps).otps
        = otps) ∧
    (∀ t0, cfg.lockUser ≤ sess.maxCounter.getD 0 → sess.lockoutStartTime = some t0 →
      (cfg.lockoutDuration : Int) * 60 ≤ now - t0 →
      (handleRequest cfg reason reactivate entered now fresh sess (some user) otps).session.lockoutStartTime
        = none ∧
      (handleRequest cfg reason reactivate entered now fresh sess (some user) otps).session.maxCounter
        = some 0 ∧
      (handleRequest cfg reason reactivate entered now fresh sess (some user) otps).session.blockCount
        = sess.blockCount) ∧
    (sess.maxCounter.getD 0 < cfg.lockUser →
      (handleRequest cfg reason reactivate entered now fresh sess (some user) otps).session.lockoutStartTime
        = sess.lockoutStartTime ∧
      ((handleRequest cfg reason reactivate entered now fresh sess (some user) otps).session.blockCount
          = sess.blockCount ∨
       (handleRequest cfg reason reactivate entered now fresh sess (some user) otps).session.blockCount
          = none)) := by
  have hncond : ¬ cfg.blockCount ≤ sess.blockCount.getD 0 := by omega
  have hdis : handleRequest cfg reason reactivate entered now fresh sess (some user) otps
      = postStep cfg reason ident entered now fresh sess user otps := by
    simp only [handleRequest, hemail, hnb, hspa, Bool.not_true, Bool.and_false,
      Bool.false_eq_true, if_false]
  rw [hdis]
  refine ⟨?_, ?_, ?_, ?_⟩
  · intro hlock hnone hdur
    have hnlt : ¬ sess.maxCounter.getD 0 < cfg.lockUser := by omega
    have hpos : (0 : Int) < (cfg.lockoutDuration : Int) * 60 - (now - now) := by omega
    simp only [postStep, if_neg hncond, if_neg hnlt, if_pos hnone, handleLockedUser,
      if_pos hpos]
    exact ⟨trivial, trivial, trivial, trivial⟩
  · intro t0 hlock hsome hopen
    have hnlt : ¬ sess.maxCounter.getD 0 < cfg.lockUser := by omega
    have hns : ¬ sess.lockoutStartTime = none := by rw [hsome]; simp
    have hpos : (0 : Int) < (cfg.lockoutDuration : Int) * 60 - (now - t0) := by omega
    simp only [postStep, if_neg hncond, if_neg hnlt]
    rw [if_neg hns]
    simp only [handleLockedUser, hsome, if_pos hpos]
    refine ⟨?_, ?_⟩ <;> trivial
  · intro t0 hlock hsome hclosed
    have hnlt : ¬ sess.maxCounter.getD 0 < cfg.lockUser := by omega
    have hns : ¬ sess.lockoutStartTime = none := by rw [hsome]; simp
    have hnpos : ¬ (0 : Int) < (cfg.lockoutDuration : Int) * 60 - (now - t0) := by omega
    simp only [postStep, if_neg hncond, if_neg hnlt]
    rw [if_neg hns]
    simp only [handleLockedUser, hsome, if_neg hnpos]
    refine ⟨?_, ?_, ?_⟩ <;> trivial
  · intro hsmall
    simp only [postStep, if_neg hncond, if_pos hsmall]
    cases hv : (verifyOtp cfg reason ident entered now fresh (some user) otps).result with
    | some u => exact ⟨rfl, Or.inr rfl⟩
    | none => exact ⟨rfl, Or.inl rfl⟩

theorem handleRequest_throttle_invariants_witness :
    ((handleRequest cfgEx Reason.emailActivation false (some "111111") 50 "999999"
        { sessEx with maxCounter := some 4 } (some userEx)
        [(Reason.emailActivation, otpFresh)]).session.lockoutStartTime = some 50 ∧
     (handleRequest cfgEx Reason.emailActivation false (some "111111") 50 "999999"
        { sessEx with maxCounter := some 4 } (some userEx)
        [(Reason.emailActivation, otpFresh)]).session.blockCount = some 1 ∧
     (handleRequest cfgEx Reason.emailActivation false (some "111111") 50 "999999"
        { sessEx with maxCounter := some 4 } (some userEx)
        [(Reason.emailActivation, otpFresh)]).session.maxCounter = some 4 ∧
     (handleRequest cfgEx Reason.emailActivation false (some "111111") 50 "999999"
        { sessEx with maxCounter := some 4 } (some userEx)
        [(Reason.emailActivation, otpFresh)]).otps = [(Reason.emailActivation, otpFresh)]) ∧
    ((handleRequest cfgEx Reason.emailActivation false (some "111111") 30 "999999"
        { sessEx with maxCounter := some 4, lockoutStartTime := some 0, blockCount := some 0 }
        (some userEx) [(Reason.emailActivation, otpFresh)]).session
      = { sessEx with
          maxCounter := some 4
          lockoutStartTime := some 0
          blockCount := some 0 }) ∧
    ((handleRequest cfgEx Reason.emailActivation false (some "111111") 60 "999999"
        { sessEx with maxCounter := some 4, lockoutStartTime := some 0, blockCount := some 0 }
        (some userEx) [(Reason.emailActivation, otpFresh)]).session.lockoutStartTime = none ∧
     (handleRequest cfgEx Reason.emailActivation false (some "111111") 60 "999999"
        { sessEx with maxCounter := some 4, lockoutStartTime := some 0, blockCount := some 0 }
        (some userEx) [(Reason.emailActivation, otpFresh)]).session.maxCounter = some 0 ∧
     (handleRequest cfgEx Reason.emailActivation false (some "111111") 60 "999999"
        { sessEx with maxCounter := some 4, lockoutStartTime := some 0, blockCount := some 0 }
        (some userEx) [(Reason.emailActivation, otpFresh)]).session.blockCount = some 0) ∧
    ((handleRequest cfgEx Reason.emailActivation false (some "000000") 10 "999999" sessEx
        (some userEx) [(Reason.emailActivation, otpFresh)]).session.lockoutStartTime
      = none) :=
  ⟨(handleRequest_throttle_invariants cfgEx Reason.emailActivation false (some "111111") 50
      "999999" { sessEx with maxCounter := some 4 } userEx
      [(Reason.emailActivation, otpFresh)] "a@b.c" rfl rfl rfl (by decide)).1
      (by decide) rfl (by decide),
   ((handleRequest_throttle_invariants cfgEx Reason.emailActivation false (some "111111") 30
      "999999"
      { sessEx with maxCounter := some 4, lockoutStartTime := some 0, blockCount := some 0 }
      userEx [(Reason.emailActivation, otpFresh)] "a@b.c" rfl rfl rfl (by decide)).2.1
      0 (by decide) rfl (by decide)).1,
   (handleRequest_throttle_invariants cfgEx Reason.emailActivation false (some "111111") 60
      "999999"
      { sessEx with maxCounter := some 4, lockoutStartTime := some 0, blockCount := some 0 }
      userEx [(Reason.emailActivation, otpFresh)] "a@b.c" rfl rfl rfl (by decide)).2.2.1
      0 (by decide) rfl (by decide),
   ((handleRequest_throttle_invariants cfgEx Reason.emailActivation false (some "000000") 10
      "999999" sessEx userEx [(Reason.emailActivation, otpFresh)] "a@b.c" rfl rfl rfl
      (by decide)).2.2.2 (by decide)).1⟩

/-- C6: the verification state machine preserves the user invariant
`is_block = true → is_active = false`; if a request turns `is_block` on, it
is the block operation, which simultaneously sets `is_active = false`,
redirects, and expires the OTP record stored for the session's reason; and a
request by an already-blocked user leaves the user record unchanged (so no
operation setting `is_active = true` runs for a blocked user). -/
theorem handleRequest_block_invariant (cfg : Config) (reason : Reason) (reactivate : Bool)
    (entered : Option String) (now : Int) (fresh : String)
    (sess : Session) (dbUser : Option User) (otps : List (Reason × OtpRecord))
    (hinv : ∀ u, dbUser = some u → u.isBlock = true → u.isActive = false) :
    (∀ u', (handleRequest cfg reason reactivate entered now fresh sess dbUser otps).dbUser
        = some u' → u'.isBlock = true → u'.isActive = false) ∧
    (∀ u u', dbUser = some u → u.isBlock = false →
      (handleRequest cfg reason reactivate entered now fresh sess dbUser otps).dbUser
        = some u' → u'.isBlock = true →
      u'.isActive = false ∧
      (handleRequest cfg reason reactivate entered now fresh sess dbUser otps).outcome
        = Outcome.redirectPath ∧
      (∀ r otp, sess.reason = some r → otpLookup otps r = some otp →
        otpLookup
          (handleRequest cfg reason reactivate entered now fresh sess dbUser otps).otps r
          = some { otp with state := OTPState.expired })) ∧
    (∀ u, dbUser = some u → u.isBlock = true →
      (handleRequest cfg reason reactivate entered now fresh sess dbUser otps).dbUser
        = some u) := by
  cases hke : sess.email with
  | none =>
    simp only [handleRequest, hke]
    refine ⟨hinv, ?_, ?_⟩
    · intro u u' hu hb hu' hb'
      rw [hu] at hu'
      injection hu' with h
      subst h
      rw [hb] at hb'
      simp at hb'
    · exact fun u hu _ => hu
  | some ident =>
    cases dbUser with
    | none =>
      simp only [handleRequest, hke]
      exact ⟨fun u' h => Option.noConfusion h, fun u u' hu => Option.noConfusion hu,
        fun u hu => Option.noConfusion hu⟩
    | some user =>
      simp only [handleRequest, hke]
      by_cases hb : user.isBlock = true
      · rw [if_pos hb]
        refine ⟨?_, ?_, ?_⟩
        · intro u' hu' hb'
          injection hu' with h
          subst h
          exact hinv _ rfl hb'
        · intro u u' hu hbf hu' hb'
          injection hu with h
          subst h
          rw [hb] at hbf
          simp at hbf
        · exact fun u hu _ => hu
      · have hbf : user.isBlock = false := by simpa using hb
        rw [if_neg hb]
        by_cases hsp : (!reactivate && !sess.spa) = true
        · rw [if_pos hsp]
          refine ⟨?_, ?_, ?_⟩
          · intro u' hu' hb'
            injection hu' with h
            subst h
            simp [hbf] at hb'
          · intro u u' hu hbf2 hu' hb'
            injection hu' with h
            subst h
            simp [hbf] at hb'
          · exact fun u hu _ => hu
        · rw [if_neg hsp]
          by_cases hblk : cfg.blockCount ≤ sess.blockCount.getD 0
          · have hbu : (blockUserStep user sess.reason otps).1
                = { user with isBlock := true, isActive := false } := by
              unfold blockUserStep
              cases sess.reason with
              | none => simp
              | some r => cases hlr : otpLookup otps r <;> simp [hlr]
            simp only [postStep, if_pos hblk]
            refine ⟨?_, ?_, ?_⟩
            · intro u' hu' _
              rw [hbu] at hu'
              injection hu' with h
              subst h
              rfl
            · intro u u' hu hbf2 hu' hb'
              rw [hbu] at hu'
              injection hu' with h
              subst h
              refine ⟨by trivial, by trivial, ?_⟩
              intro r otp hr hlookr
              simp only [blockUserStep, hr, hlookr]
              exact otpLookup_otpSave_self otps r otp _ hlookr
            · intro u hu hb'
              injection hu with h
              subst h
              simp [hbf] at hb'
          · by_cases hcnt : sess.maxCounter.getD 0 < cfg.lockUser
            · simp only [postStep, if_neg hblk, if_pos hcnt]
              have husr := verifyOtp_user_cases cfg reason ident entered now fresh user otps
              cases hv : (verifyOtp cfg reason ident entered now fresh (some user) otps).result with
              | some u0 =>
                simp only [hv]
                refine ⟨?_, ?_, ?_⟩
                · intro u' hu' hb'
                  rcases husr with h | h <;> rw [h] at hu' <;> injection hu' with hh <;>
                    subst hh <;> simp [hbf] at hb'
                · intro u1 u' hu1 hbf2 hu' hb'
                  rcases husr with h | h <;> rw [h] at hu' <;> injection hu' with hh <;>
                    subst hh <;> simp [hbf] at hb'
                · intro u1 hu1 hb'
                  injection hu1 with hh
                  subst hh
                  simp [hbf] at hb'
              | none =>
                simp only [hv]
                refine ⟨?_, ?_, ?_⟩
                · intro u' hu' hb'
                  rcases husr with h | h <;> rw [h] at hu' <;> injection hu' with hh <;>
                    subst hh <;> simp [hbf] at hb'
                · intro u1 u' hu1 hbf2 hu' hb'
                  rcases husr with h | h <;> rw [h] at hu' <;> injection hu' with hh <;>
                    subst hh <;> simp [hbf] at hb'
                · intro u1 hu1 hb'
                  injection hu1 with hh
                  subst hh
                  simp [hbf] at hb'
            · simp only [postStep, if_neg hblk, if_neg hcnt]
              refine ⟨?_, ?_, ?_⟩
              · intro u' hu' hb'
                injection hu' with h
                subst h
                simp [hbf] at hb'
              · intro u1 u' hu1 hbf2 hu' hb'
                injection hu' with h
                subst h
                simp [hbf] at hb'
              · exact fun u hu _ => hu

theorem handleRequest_block_invariant_witness :
    (User.mk false true).isActive = false ∧
    ((User.mk false true).isActive = false ∧
     (handleRequest cfgEx Reason.emailActivation false (some "111111") 10 "999999"
        { sessEx with blockCount := some 1 } (some userEx)
        [(Reason.emailActivation, otpFresh)]).outcome = Outcome.redirectPath ∧
     otpLookup (handleRequest cfgEx Reason.emailActivation false (some "111111") 10 "999999"
        { sessEx with blockCount := some 1 } (some userEx)
        [(Reason.emailActivation, otpFresh)]).otps Reason.emailActivation
       = some { otpFresh with state := OTPState.expired }) ∧
    (handleRequest cfgEx Reason.emailActivation false (some "111111") 10 "999999" sessEx
        (some (User.mk false true)) [(Reason.emailActivation, otpFresh)]).dbUser
      = some (User.mk false true) := by
  have h1 := handleRequest_block_invariant cfgEx Reason.emailActivation false
    (some "111111") 10 "999999" { sessEx with blockCount := some 1 } (some userEx)
    [(Reason.emailActivation, otpFresh)] (by decide)
  have h2 := handleRequest_block_invariant cfgEx Reason.emailActivation false
    (some "111111") 10 "999999" sessEx (some (User.mk false true))
    [(Reason.emailActivation, otpFresh)] (by decide)
  have hc2 := h1.2.1 userEx (User.mk false true) rfl (by decide) (by decide) (by decide)
  exact ⟨h1.1 (User.mk false true) (by decide) (by decide),
    ⟨hc2.1, hc2.2.1, hc2.2.2 Reason.emailActivation otpFresh (by decide) (by decide)⟩,
    h2.2.2 (User.mk false true) rfl (by decide)⟩

end SageAuth
